import Mathlib

/-!
# Verification of the ntcore Python SDK client

Shallow embedding of `sdk/python/ntcore/client.py` and
`sdk/python/ntcore/models/experiment.py` (the `Client` facade, the
`Experiment` run handle, URL building, model serialization dispatch and the
`save_model` payload construction), together with theorems settling the
behavioural claims about them.

Python-level conventions used throughout:

* byte strings are `List Nat` with every element `< 256`;
* a raised Python exception is a `PyError`; a call that never returns
  (a blocking `queue.Queue.get()` on an empty queue in a single-threaded
  program) is the distinguished outcome `PyResult.blocked`;
* the `queue.Queue` held in `Client._queue` is modelled as a Lean list with
  the OLDEST element at the head (`put` appends at the tail, `get` pops the
  head), which is exactly the FIFO discipline of `queue.Queue`;
* crucially, Python's `queue.Queue` defines `qsize()` but neither `__len__`
  nor `__getitem__`, so `len(self._queue)` and `self._queue[0]` both raise
  `TypeError`; the embedding models those two operations explicitly.
-/

/-- Python exceptions that the client code can raise. -/
inductive PyError where
  | typeError (msg : String)
  | valueError (msg : String)
  | attributeError (msg : String)
  | transportError (msg : String)
  deriving DecidableEq, Repr

/-- Outcome of running one Python method call: a returned value, a raised
exception, or a call that blocks forever (never returns). -/
inductive PyResult (α : Type) where
  | ok : α → PyResult α
  | raised : PyError → PyResult α
  | blocked : PyResult α
  deriving DecidableEq, Repr

/-! ## JSON metadata (`json.dumps`) -/

/-- A JSON-able metadata value, as passed to `log_pretraining_metadata` /
`log_posttraining_metadata` and serialized by `json.dumps`. -/
inductive JValue where
  | jnull : JValue
  | jbool : Bool → JValue
  | jnum : Int → JValue
  | jstr : String → JValue
  deriving DecidableEq, Repr

/-- A Python dict used as run metadata: keys in insertion order. -/
abbrev Metadata := List (String × JValue)

/-- JSON string escaping (backslash and double quote), as `json.dumps`
applies to dictionary keys and string values. -/
def jsonEscapeChar (c : Char) : String :=
  if c = '\\' then "\\\\"
  else if c = '"' then "\\\""
  else String.singleton c

/-- Escape a whole string for embedding in JSON text. -/
def jsonEscape (s : String) : String :=
  String.join (s.data.map jsonEscapeChar)

/-- Serialize one JSON value, as `json.dumps` renders it. -/
def jValueDumps : JValue → String
  | .jnull => "null"
  | .jbool true => "true"
  | .jbool false => "false"
  | .jnum n => toString n
  | .jstr s => "\"" ++ jsonEscape s ++ "\""

/-- `json.dumps` on a dict: `\x7b"k": v, ...\x7d` with Python's default
separators `(', ', ': ')`. -/
def jsonDumps (md : Metadata) : String :=
  "\x7b" ++
    String.intercalate ", "
      (md.map fun kv => "\"" ++ jsonEscape kv.1 ++ "\": " ++ jValueDumps kv.2) ++
  "\x7d"

/-! ## UTF-8 encoding (`str.encode('utf-8')`) -/

/-- UTF-8 encoding of a single Unicode code point (1 to 4 bytes). -/
def utf8EncodeChar (c : Char) : List Nat :=
  let n := c.toNat
  if n < 128 then [n]
  else if n < 2048 then [192 + n / 64, 128 + n % 64]
  else if n < 65536 then [224 + n / 4096, 128 + n / 64 % 64, 128 + n % 64]
  else [240 + n / 262144, 128 + n / 4096 % 64, 128 + n / 64 % 64, 128 + n % 64]

/-- `s.encode('utf-8')`: the UTF-8 byte string of `s`. -/
def utf8Encode (s : String) : List Nat :=
  (s.data.map utf8EncodeChar).flatten

/-! ## Base64 (`base64.b64encode`) -/

/-- The standard base64 alphabet: sextet value to character. -/
def b64Char (n : Nat) : Char :=
  if n < 26 then Char.ofNat (65 + n)
  else if n < 52 then Char.ofNat (97 + (n - 26))
  else if n < 62 then Char.ofNat (48 + (n - 52))
  else if n = 62 then '+'
  else '/'

/-- Inverse of the base64 alphabet: character to sextet value, `none` for a
character outside the alphabet. -/
def b64Val (c : Char) : Option Nat :=
  let n := c.toNat
  if 65 ≤ n ∧ n ≤ 90 then some (n - 65)
  else if 97 ≤ n ∧ n ≤ 122 then some (n - 97 + 26)
  else if 48 ≤ n ∧ n ≤ 57 then some (n - 48 + 52)
  else if c = '+' then some 62
  else if c = '/' then some 63
  else none

/-- `base64.b64encode`: standard base64 with `'='` padding, 3 input bytes to
4 output characters. -/
def base64Encode : List Nat → List Char
  | [] => []
  | [a] => [b64Char (a / 4), b64Char (a % 4 * 16), '=', '=']
  | [a, b] => [b64Char (a / 4), b64Char (a % 4 * 16 + b / 16), b64Char (b % 16 * 4), '=']
  | a :: b :: c :: rest =>
      b64Char (a / 4) :: b64Char (a % 4 * 16 + b / 16) ::
      b64Char (b % 16 * 4 + c / 64) :: b64Char (c % 64) :: base64Encode rest

/-- Strict base64 decoding: inverse of `base64Encode`, `none` on text that is
not well-padded base64. -/
def base64Decode : List Char → Option (List Nat)
  | [] => some []
  | c1 :: c2 :: c3 :: c4 :: rest =>
      match b64Val c1, b64Val c2 with
      | some s1, some s2 =>
        if c3 = '=' ∧ c4 = '=' ∧ rest = [] then
          some [s1 * 4 + s2 / 16]
        else if c4 = '=' ∧ rest = [] then
          match b64Val c3 with
          | some s3 => some [s1 * 4 + s2 / 16, s2 % 16 * 16 + s3 / 4]
          | none => none
        else
          match b64Val c3, b64Val c4, base64Decode rest with
          | some s3, some s4, some tail =>
              some ((s1 * 4 + s2 / 16) :: (s2 % 16 * 16 + s3 / 4) ::
                    (s3 % 4 * 64 + s4) :: tail)
          | _, _, _ => none
      | _, _ => none
  | _ => none

/-! ## Request Builder (`Client.__build_url`) -/

/-- Python `s.strip('/')` on the character list of `s`: remove every leading
and trailing `'/'`. -/
def pyStripSlash (s : List Char) : List Char :=
  ((s.dropWhile (· = '/')).reverse.dropWhile (· = '/')).reverse

/-- Python `'/'.join(segs)`: concatenate with a single `'/'` between
consecutive elements. -/
def joinSlash : List (List Char) → List Char
  | [] => []
  | [s] => s
  | s :: rest => s ++ '/' :: joinSlash rest

/-- `Client.__build_url(*paths)` at the character level:
`'/'.join(s.strip('/') for s in paths)`. -/
def build_url (paths : List (List Char)) : List Char :=
  joinSlash (paths.map pyStripSlash)

/-- Whether a character list contains two adjacent separators `"//"`. -/
def hasDoubledSep : List Char → Bool
  | a :: b :: rest => (a = '/' && b = '/') || hasDoubledSep (b :: rest)
  | _ => false

/-! ## Model objects and the Model Serializer (`Client.__serialize_model`) -/

/-- A transient file handle (`tempfile.NamedTemporaryFile`). -/
structure TempFile where
  name : String
  deriving DecidableEq, Repr

/-- A trained-model object as seen by `Client.__serialize_model`. The three
Booleans record the `isinstance` checks against `sklearn.base.BaseEstimator`,
`tf.keras.Model` and `torch.nn.Module`; the three byte-string fields are the
bytes the corresponding external serialization routine produces for this
object (`pickle.dumps(model)`; the gzipped tar of the saved Keras model
directory, read back from the temp file; the saved `torch.jit.script` module,
read back from the temp file). The external libraries are outside the
repository, so their output bytes are uninterpreted per-object data. -/
structure PyModel where
  is_estimator : Bool
  is_keras_model : Bool
  is_torch_module : Bool
  pickle_bytes : List Nat
  keras_tar_bytes : List Nat
  torch_script_bytes : List Nat
  deriving DecidableEq, Repr

/-- `Client.__serialize_model(model)`: dispatch on `isinstance` in source
order (sklearn estimator, then Keras model, then torch module), first match
wins; the sklearn branch returns no temp file (`None`); an object matching no
branch falls off the end of the `if/elif` chain, i.e. returns Python `None`,
modelled as `none`. -/
def serialize_model (model : PyModel) : Option (List Nat × Option TempFile × String) :=
  if model.is_estimator then
    some (model.pickle_bytes, none, "sklearn")
  else if model.is_keras_model then
    some (model.keras_tar_bytes, some ⟨"model.tar.gz"⟩, "tensorflow")
  else if model.is_torch_module then
    some (model.torch_script_bytes, some ⟨"model.pt"⟩, "pytorch")
  else
    none

/-! ## Run handle (`models/experiment.py`) -/

/-- The `Experiment` run handle. `workspace_id` is set by `__init__` and has
a read-only `@property` with no setter; the metadata fields start as empty
dicts and have property setters. -/
structure Experiment where
  workspace_id : Option String
  runtime : Option String := none
  framework : Option String := none
  pretraining_metadata : Metadata := []
  posttraining_metadata : Metadata := []
  serializable_model : Option PyModel := none
  deriving DecidableEq, Repr

/-! ## Client facade state -/

/-- The `save_model` upload payload (`dict(runtime=..., framework=...,
parameters=..., metrics=..., model=...)`). `parameters` and `metrics` are
byte strings (`json.dumps(...).encode('utf-8')`); `model` is the ASCII text
of `base64.b64encode(serialized_model)`. -/
structure Payload where
  runtime : String
  framework : String
  parameters : List Nat
  metrics : List Nat
  model : List Char
  deriving DecidableEq, Repr

/-- Mutable state of one `Client` instance: the pending-run queue
(`self._queue`, oldest run at the head) plus, for verification, the trace of
POST requests issued through the transport adapter. -/
structure ClientState where
  queue : List Experiment := []
  posts : List (String × Payload) := []
  deriving DecidableEq, Repr

/-- `len(self._queue)` where `self._queue` is a `queue.Queue`:
`queue.Queue` defines `qsize()` but not `__len__`, so CPython raises
`TypeError` before any comparison happens. -/
def queueLen (_q : List Experiment) : Except PyError Nat :=
  .error (.typeError "object of type Queue has no len()")

/-- `self._queue[0]` where `self._queue` is a `queue.Queue`: the class
defines no `__getitem__`, so CPython raises `TypeError`. -/
def queueGetItem (_q : List Experiment) (_i : Nat) : Except PyError Experiment :=
  .error (.typeError "Queue object is not subscriptable")

/-- Modelled from the spec: `get_runtime_version()` is imported from
`ntcore/integrations/utils.py`, which is not part of the sources here; the
spec only says the payload carries "a runtime-version string". -/
def get_runtime_version : String := "python"

/-- Modelled from the spec: `ApiClient.doPost` lives in
`ntcore/resources/api_client.py`, which is not part of the sources here. Per
the spec the Transport Adapter sends the payload to the relative path and
surfaces any transport error verbatim, with no retry. The embedding records
the issued POST in the trace and takes the transport outcome as the
parameter `postOk`. -/
def doPost (s : ClientState) (url : String) (payload : Payload) (postOk : Bool) :
    PyResult String × ClientState :=
  let s' : ClientState := { s with posts := s.posts ++ [(url, payload)] }
  if postOk then (.ok "response", s') else (.raised (.transportError "request failed"), s')

namespace Client

/-- `Client.start_run(workspace_id)`: construct an `Experiment` bound to the
workspace id, `put` it at the tail of the queue, and return it. -/
def start_run (s : ClientState) (workspace_id : Option String) :
    Experiment × ClientState :=
  let experiment : Experiment := { workspace_id := workspace_id }
  (experiment, { s with queue := s.queue ++ [experiment] })

/-- `Client.log_pretraining_metadata(metadata)`, line by line:
`len(self._queue)` raises `TypeError` (see `queueLen`); were a length
available, a zero length would raise `ValueError('No active experiment')`
and otherwise `self._queue[0]` would be subscripted (see `queueGetItem`)
and its `pretraining_metadata` overwritten. -/
def log_pretraining_metadata (s : ClientState) (metadata : Metadata) :
    PyResult Unit × ClientState :=
  match queueLen s.queue with
  | .error e => (.raised e, s)
  | .ok n =>
    if n = 0 then (.raised (.valueError "No active experiment"), s)
    else
      match queueGetItem s.queue 0 with
      | .error e => (.raised e, s)
      | .ok _ =>
        match s.queue with
        | [] => (.raised (.valueError "No active experiment"), s)
        | head :: rest =>
          (.ok (), { s with queue := { head with pretraining_metadata := metadata } :: rest })

/-- `Client.log_posttraining_metadata(metadata)`: same shape as
`log_pretraining_metadata`, targeting `posttraining_metadata`. -/
def log_posttraining_metadata (s : ClientState) (metadata : Metadata) :
    PyResult Unit × ClientState :=
  match queueLen s.queue with
  | .error e => (.raised e, s)
  | .ok n =>
    if n = 0 then (.raised (.valueError "No active experiment"), s)
    else
      match queueGetItem s.queue 0 with
      | .error e => (.raised e, s)
      | .ok _ =>
        match s.queue with
        | [] => (.raised (.valueError "No active experiment"), s)
        | head :: rest =>
          (.ok (), { s with queue := { head with posttraining_metadata := metadata } :: rest })

/-- String-level `Client.__build_url`. -/
def build_url_str (paths : List String) : String :=
  String.mk (build_url (paths.map String.data))

/-- `Client.save_model(model)`, line by line:
`self._queue.get()` blocks forever on an empty `queue.Queue` (single caller
thread, so nothing can ever `put`), else pops the oldest entry; then the
`workspace_id is None` check raises `ValueError('Workspace id is required')`;
then `__serialize_model` — unpacking its Python `None` result (no matching
`isinstance` branch) raises `TypeError`; then the payload dict is built;
then `print(model_file.name)` raises `AttributeError` when `model_file` is
`None` (the sklearn branch); finally `doPost` is issued. -/
def save_model (s : ClientState) (model : PyModel) (postOk : Bool) :
    PyResult String × ClientState :=
  match s.queue with
  | [] => (.blocked, s)
  | experiment :: rest =>
    let s : ClientState := { s with queue := rest }
    match experiment.workspace_id with
    | none => (.raised (.valueError "Workspace id is required"), s)
    | some workspace_id =>
      match serialize_model model with
      | none => (.raised (.typeError "cannot unpack non-iterable NoneType object"), s)
      | some (serialized_model, model_file, framework) =>
        let payload : Payload := {
          runtime := get_runtime_version,
          framework := framework,
          parameters := utf8Encode (jsonDumps experiment.pretraining_metadata),
          metrics := utf8Encode (jsonDumps experiment.posttraining_metadata),
          model := base64Encode serialized_model }
        match model_file with
        | none => (.raised (.attributeError "NoneType object has no attribute name"), s)
        | some _ =>
          doPost s (build_url_str ["workspace", workspace_id, "experiment"]) payload postOk

end Client

/-! ## Helper lemmas

Base64 decode is a left inverse of encode on byte strings; the Request
Builder's output is separator-clean for good segments; `save_model` always
pops exactly the head of the queue. -/

/-- Decoding the base64 alphabet character of a sextet recovers the sextet. -/
theorem b64Val_b64Char : ∀ n : Nat, n < 64 → b64Val (b64Char n) = some n := by decide

/-- The base64 alphabet never produces the padding character. -/
theorem b64Char_ne_pad : ∀ n : Nat, n < 64 → b64Char n ≠ '=' := by decide

/-- `base64Decode` is a left inverse of `base64Encode` on byte strings. -/
theorem base64_round_trip : ∀ (bs : List Nat), (∀ b ∈ bs, b < 256) →
    base64Decode (base64Encode bs) = some bs
  | [], _ => rfl
  | [a], h => by
      have ha : a < 256 := h a (by simp)
      simp only [base64Encode, base64Decode]
      rw [b64Val_b64Char _ (by omega), b64Val_b64Char _ (by omega)]
      simp only []
      rw [if_pos (by simp)]
      simp only [Option.some.injEq, List.cons.injEq, and_true]
      omega
  | [a, b], h => by
      have ha : a < 256 := h a (by simp)
      have hb : b < 256 := h b (by simp)
      simp only [base64Encode, base64Decode]
      rw [b64Val_b64Char _ (by omega), b64Val_b64Char _ (by omega)]
      simp only []
      rw [if_neg (fun hc => b64Char_ne_pad (b % 16 * 4) (by omega) hc.1)]
      rw [if_pos (by simp)]
      rw [b64Val_b64Char _ (by omega)]
      simp only [Option.some.injEq, List.cons.injEq, and_true]
      omega
  | a :: b :: c :: rest, h => by
      have ha : a < 256 := h a (by simp)
      have hb : b < 256 := h b (by simp)
      have hc : c < 256 := h c (by simp)
      have ih := base64_round_trip rest
        (fun y hy => h y (List.mem_cons_of_mem _ (List.mem_cons_of_mem _ (List.mem_cons_of_mem _ hy))))
      simp only [base64Encode, base64Decode]
      rw [b64Val_b64Char _ (by omega), b64Val_b64Char _ (by omega)]
      simp only []
      rw [if_neg (fun hcon => b64Char_ne_pad (b % 16 * 4 + c / 64) (by omega) hcon.1)]
      rw [if_neg (fun hcon => b64Char_ne_pad (c % 64) (by omega) hcon.1)]
      rw [b64Val_b64Char _ (by omega), b64Val_b64Char _ (by omega)]
      rw [ih]
      simp only [Option.some.injEq, List.cons.injEq, and_true, and_self]
      omega

theorem head?_dropWhile_slash : ∀ (l : List Char) c,
    (l.dropWhile (· = '/')).head? = some c → c ≠ '/'
  | [], c => by simp [List.dropWhile]
  | a :: t, c => by
      by_cases h : a = '/'
      · simp only [List.dropWhile_cons, h, decide_eq_true_eq, if_pos rfl]
        exact head?_dropWhile_slash t c
      · simp [List.dropWhile_cons, h]
        intro he
        exact he ▸ h

theorem getLast?_dropWhile_slash (l : List Char) :
    ∀ c, ((l.dropWhile (· = '/')).getLast? = some c) → (l.dropWhile (· = '/')) ≠ [] →
      (l.getLast? = some c) := by
  induction l with
  | nil => simp [List.dropWhile]
  | cons a t ih =>
      intro c
      by_cases h : a = '/'
      · simp only [List.dropWhile_cons, h, decide_eq_true_eq, if_pos rfl]
        intro h1 h2
        have ht : t ≠ [] := by
          intro hnil
          rw [hnil] at h1 h2
          simp [List.dropWhile] at h2
        rw [List.getLast?_cons, ih c h1 h2]
        rfl
      · simp only [List.dropWhile_cons, h, decide_eq_true_eq, if_neg h]
        intro h1 _
        exact h1

theorem pyStripSlash_head (s : List Char) (c : Char) :
    (pyStripSlash s).head? = some c → c ≠ '/' := by
  intro h
  unfold pyStripSlash at h
  rw [List.head?_reverse] at h
  have hne : ((s.dropWhile (· = '/')).reverse.dropWhile (· = '/')) ≠ [] := by
    intro hnil
    rw [hnil] at h
    simp at h
  have h2 := getLast?_dropWhile_slash ((s.dropWhile (· = '/')).reverse) c h hne
  rw [List.getLast?_reverse] at h2
  exact head?_dropWhile_slash s c h2

theorem pyStripSlash_getLast (s : List Char) (c : Char) :
    (pyStripSlash s).getLast? = some c → c ≠ '/' := by
  intro h
  unfold pyStripSlash at h
  rw [List.getLast?_reverse] at h
  exact head?_dropWhile_slash _ c h

theorem joinSlash_ne_nil : ∀ l : List (List Char), l ≠ [] → (∀ g ∈ l, g ≠ []) →
    joinSlash l ≠ []
  | [], h, _ => absurd rfl h
  | [g], _, hg => by simpa [joinSlash] using hg g (by simp)
  | g :: g2 :: t, _, hg => by
      have : joinSlash (g :: g2 :: t) = g ++ '/' :: joinSlash (g2 :: t) := rfl
      rw [this]
      simp

theorem joinSlash_head (g : List Char) (rest : List (List Char)) (hg : g ≠ []) :
    (joinSlash (g :: rest)).head? = g.head? := by
  cases rest with
  | nil => rfl
  | cons g2 t =>
      have : joinSlash (g :: g2 :: t) = g ++ '/' :: joinSlash (g2 :: t) := rfl
      rw [this]
      obtain ⟨a, g', rfl⟩ := List.exists_cons_of_ne_nil hg
      simp

theorem joinSlash_getLast_ne : ∀ l : List (List Char),
    (∀ g ∈ l, g ≠ [] ∧ g.getLast? ≠ some '/') →
    (joinSlash l).getLast? ≠ some '/'
  | [], _ => by simp [joinSlash]
  | [g], h => by simpa [joinSlash] using (h g (by simp)).2
  | g :: g2 :: t, h => by
      have hm : joinSlash (g2 :: t) ≠ [] :=
        joinSlash_ne_nil _ (by simp) (fun x hx => (h x (List.mem_cons_of_mem _ hx)).1)
      have ih := joinSlash_getLast_ne (g2 :: t) (fun x hx => h x (List.mem_cons_of_mem _ hx))
      have hj : joinSlash (g :: g2 :: t) = g ++ '/' :: joinSlash (g2 :: t) := rfl
      rw [hj]
      obtain ⟨b, m, hbm⟩ := List.exists_cons_of_ne_nil hm
      rw [hbm]
      rw [List.getLast?_append, List.getLast?_cons_cons]
      rw [hbm] at ih
      obtain ⟨c', hc'⟩ := Option.isSome_iff_exists.mp (List.getLast?_isSome.mpr (by simp : (b :: m) ≠ []))
      rw [hc', Option.or_some]
      rw [hc'] at ih
      exact ih

theorem hasDoubledSep_append : ∀ (xs ys : List Char),
    hasDoubledSep xs = false → hasDoubledSep ys = false →
    (xs.getLast? ≠ some '/' ∨ ys.head? ≠ some '/') →
    hasDoubledSep (xs ++ ys) = false
  | [], ys, _, hy, _ => hy
  | [a], ys, _, hy, hor => by
      cases ys with
      | nil => simp [hasDoubledSep]
      | cons b t =>
          show hasDoubledSep (a :: b :: t) = false
          have hfirst : (decide (a = '/') && decide (b = '/')) = false := by
            rcases hor with h | h
            · simp only [List.getLast?_cons, List.getLast?_nil] at h
              simp [show a ≠ '/' by simpa using h]
            · simp only [List.head?_cons] at h
              simp [show b ≠ '/' by simpa using h]
          simp only [hasDoubledSep, hfirst, Bool.false_or]
          exact hy
  | a :: b :: t, ys, hx, hy, hor => by
      have hx1 : (decide (a = '/') && decide (b = '/')) = false ∧ hasDoubledSep (b :: t) = false := by
        constructor
        · by_contra hcon
          simp only [hasDoubledSep] at hx
          rw [Bool.or_eq_false_iff] at hx
          exact hcon hx.1
        · simp only [hasDoubledSep] at hx
          rw [Bool.or_eq_false_iff] at hx
          exact hx.2
      have hor' : (b :: t).getLast? ≠ some '/' ∨ ys.head? ≠ some '/' := by
        rwa [List.getLast?_cons_cons] at hor
      have ih := hasDoubledSep_append (b :: t) ys hx1.2 hy hor'
      show hasDoubledSep (a :: (b :: (t ++ ys))) = false
      simp only [hasDoubledSep, hx1.1, Bool.false_or]
      exact ih

theorem joinSlash_no_doubled : ∀ l : List (List Char),
    (∀ g ∈ l, g ≠ [] ∧ g.head? ≠ some '/' ∧ g.getLast? ≠ some '/' ∧ hasDoubledSep g = false) →
    hasDoubledSep (joinSlash l) = false
  | [], _ => rfl
  | [g], h => (h g (by simp)).2.2.2
  | g :: g2 :: t, h => by
      have hm : joinSlash (g2 :: t) ≠ [] :=
        joinSlash_ne_nil _ (by simp) (fun x hx => (h x (List.mem_cons_of_mem _ hx)).1)
      have ih := joinSlash_no_doubled (g2 :: t) (fun x hx => h x (List.mem_cons_of_mem _ hx))
      have hhead : (joinSlash (g2 :: t)).head? = g2.head? :=
        joinSlash_head g2 t (h g2 (by simp)).1
      have hj : joinSlash (g :: g2 :: t) = g ++ '/' :: joinSlash (g2 :: t) := rfl
      rw [hj]
      obtain ⟨b, m, hbm⟩ := List.exists_cons_of_ne_nil hm
      have hys : hasDoubledSep ('/' :: joinSlash (g2 :: t)) = false := by
        rw [hbm]
        show ((decide ('/' = '/')) && (decide (b = '/')) || hasDoubledSep (b :: m)) = false
        have hb : b ≠ '/' := by
          intro hbe
          apply (h g2 (by simp)).2.1
          rw [← hhead, hbm, List.head?_cons, hbe]
        rw [← hbm]
        simp only [Bool.or_eq_false_iff]
        exact ⟨by simp [hb], ih⟩
      refine hasDoubledSep_append g ('/' :: joinSlash (g2 :: t)) (h g (by simp)).2.2.2 hys ?_
      exact Or.inl (h g (by simp)).2.2.1

/-- Whatever the outcome, `save_model` leaves the queue equal to the tail of
the queue it started from: the head entry is popped by `self._queue.get()`
before any validation, serialization or upload, and never restored. -/
theorem save_model_queue_eq_tail (s : ClientState) (m : PyModel) (postOk : Bool) :
    (Client.save_model s m postOk).2.queue = s.queue.tail := by
  cases hq : s.queue with
  | nil => simp [Client.save_model, hq]
  | cons e rest =>
    cases hw : e.workspace_id with
    | none => simp [Client.save_model, hq, hw]
    | some wid =>
      cases hser : serialize_model m with
      | none => simp [Client.save_model, hq, hw, hser]
      | some triple =>
        obtain ⟨bytes, file, tag⟩ := triple
        cases file with
        | none => simp [Client.save_model, hq, hw, hser]
        | some f => cases postOk <;> simp [Client.save_model, hq, hw, hser, doPost]

/-! ## Claim theorems -/

/-- C1: the claim says that with two pending runs a `log_pretraining_metadata`
(or `log_posttraining_metadata`) call overwrites the head (oldest) run's
metadata only. On the code this is false for a different reason than the
claim anticipates: `self._queue` is a `queue.Queue`, which supports neither
`len()` nor subscripting, so with two pending runs (two `start_run` calls)
both logging calls raise `TypeError` from `len(self._queue)` and leave the
whole facade state — both runs, all fields — unchanged. This theorem
evaluates the code at that failing input. -/
theorem log_metadata_two_pending_raises_typeError :
    Client.log_pretraining_metadata
        ((Client.start_run ((Client.start_run {} (some "ws1")).2) (some "ws1")).2)
        [("lr", JValue.jnum 1)] =
      (.raised (.typeError "object of type Queue has no len()"),
        (Client.start_run ((Client.start_run {} (some "ws1")).2) (some "ws1")).2) ∧
    Client.log_posttraining_metadata
        ((Client.start_run ((Client.start_run {} (some "ws1")).2) (some "ws1")).2)
        [("acc", JValue.jnum 1)] =
      (.raised (.typeError "object of type Queue has no len()"),
        (Client.start_run ((Client.start_run {} (some "ws1")).2) (some "ws1")).2) :=
  ⟨rfl, rfl⟩

/-- C2: the claim says that with an empty Pending-Run Collection the logging
calls fail with the EmptyRunQueue error (`ValueError('No active experiment')`)
leaving the state unchanged. On the code, the state is indeed unchanged but
the error is a `TypeError` from `len(self._queue)` — the `raise
ValueError('No active experiment')` line is unreachable. This theorem
evaluates both logging calls on the empty state and records that the raised
error differs from the EmptyRunQueue error. -/
theorem log_metadata_empty_raises_typeError_not_valueError :
    Client.log_pretraining_metadata {} [("lr", JValue.jnum 1)] =
      (.raised (.typeError "object of type Queue has no len()"), {}) ∧
    Client.log_posttraining_metadata {} [("acc", JValue.jnum 1)] =
      (.raised (.typeError "object of type Queue has no len()"), {}) ∧
    PyError.typeError "object of type Queue has no len()" ≠
      PyError.valueError "No active experiment" :=
  ⟨rfl, rfl, by simp⟩

/-- C3: the claim says `save_model` with no pending entries fails with the
EmptyRunQueue error rather than succeeding, blocking, or doing anything
else. On the code, `self._queue.get()` is a blocking `queue.Queue.get` with
no timeout: on an empty queue in the single-threaded client it blocks
forever and never raises. This theorem evaluates `save_model` on the empty
state: the outcome is `blocked`, not an error. -/
theorem save_model_empty_blocks (m : PyModel) (postOk : Bool) :
    Client.save_model {} m postOk = (.blocked, {}) ∧
    ∀ e : PyError, (PyResult.blocked : PyResult String) ≠ .raised e := by
  exact ⟨rfl, fun e h => by cases h⟩

/-- C3 witness: the evaluation at a concrete model object. -/
theorem save_model_empty_blocks_witness :
    Client.save_model {} ⟨true, false, false, [7], [], []⟩ true = (.blocked, {}) ∧
    ∀ e : PyError, (PyResult.blocked : PyResult String) ≠ .raised e :=
  save_model_empty_blocks ⟨true, false, false, [7], [], []⟩ true

/-- C4 counterexample: the claim quantifies over every list of segments that
may carry leading/trailing separators. The segment `"/"` (a single
separator, both leading and trailing) strips to the empty string, and
joining then produces the doubled separator `"a//b"`. -/
theorem build_url_doubled_sep_cex :
    build_url [['a'], ['/'], ['b']] = ['a', '/', '/', 'b'] ∧
    hasDoubledSep (build_url [['a'], ['/'], ['b']]) = true := by
  exact ⟨rfl, rfl⟩

/-- C4 (amended): for every list of path segments in which each segment has
at least one non-separator character (its stripped form is nonempty) and no
doubled separator in its stripped interior, the Request Builder's output
contains no `"//"`, does not begin with a separator and does not end with a
separator. -/
theorem build_url_separator_clean (paths : List (List Char))
    (h : ∀ s ∈ paths, pyStripSlash s ≠ [] ∧ hasDoubledSep (pyStripSlash s) = false) :
    hasDoubledSep (build_url paths) = false ∧
    (build_url paths).head? ≠ some '/' ∧
    (build_url paths).getLast? ≠ some '/' := by
  have hgood : ∀ g ∈ paths.map pyStripSlash,
      g ≠ [] ∧ g.head? ≠ some '/' ∧ g.getLast? ≠ some '/' ∧ hasDoubledSep g = false := by
    intro g hg
    rw [List.mem_map] at hg
    obtain ⟨s, hs, rfl⟩ := hg
    refine ⟨(h s hs).1, ?_, ?_, (h s hs).2⟩
    · intro hc
      exact pyStripSlash_head s '/' hc rfl
    · intro hc
      exact pyStripSlash_getLast s '/' hc rfl
  refine ⟨joinSlash_no_doubled _ hgood, ?_, ?_⟩
  · cases paths with
    | nil => simp [build_url, joinSlash]
    | cons p t =>
        unfold build_url
        rw [List.map_cons, joinSlash_head _ _ (hgood (pyStripSlash p) (by simp)).1]
        intro hc
        exact pyStripSlash_head p '/' hc rfl
  · exact joinSlash_getLast_ne _ (fun g hg => ⟨(hgood g hg).1, (hgood g hg).2.2.1⟩)

/-- C4 witness: the amended theorem applied to the concrete segments
`"/workspace/"`, `"ws/1"`, `"experiment"`. -/
theorem build_url_separator_clean_witness :
    hasDoubledSep (build_url [['/', 'w', 's', '/'], ['w', '/', '1'], ['e', 'x', 'p']]) = false ∧
    (build_url [['/', 'w', 's', '/'], ['w', '/', '1'], ['e', 'x', 'p']]).head? ≠ some '/' ∧
    (build_url [['/', 'w', 's', '/'], ['w', '/', '1'], ['e', 'x', 'p']]).getLast? ≠ some '/' :=
  build_url_separator_clean [['/', 'w', 's', '/'], ['w', '/', '1'], ['e', 'x', 'p']] (by decide)

/-- C5: when the head pending run's workspace id is unset (`None`),
`save_model` raises `ValueError('Workspace id is required')`
(MissingWorkspaceError) and no POST is issued through the transport
adapter. -/
theorem save_model_missing_workspace (s : ClientState) (m : PyModel) (postOk : Bool)
    (e : Experiment) (rest : List Experiment)
    (hq : s.queue = e :: rest) (hw : e.workspace_id = none) :
    (Client.save_model s m postOk).1 = .raised (.valueError "Workspace id is required") ∧
    (Client.save_model s m postOk).2.posts = s.posts := by
  constructor <;> simp [Client.save_model, hq, hw]

/-- C5 witness: `start_run(None)` followed by `save_model` on a concrete
model raises MissingWorkspaceError with no POST recorded. -/
theorem save_model_missing_workspace_witness :
    (Client.save_model ((Client.start_run {} none).2) ⟨true, false, false, [7], [], []⟩ true).1 =
        .raised (.valueError "Workspace id is required") ∧
    (Client.save_model ((Client.start_run {} none).2) ⟨true, false, false, [7], [], []⟩ true).2.posts =
        ((Client.start_run {} none).2).posts :=
  save_model_missing_workspace ((Client.start_run {} none).2) ⟨true, false, false, [7], [], []⟩ true
    { workspace_id := none } [] rfl rfl

/-- Helper for C6: the byte string chosen by `__serialize_model` is one of
the three per-model serialization outputs. -/
theorem serialize_model_bytes (m : PyModel) (bytes : List Nat)
    (file : Option TempFile) (tag : String)
    (h : serialize_model m = some (bytes, file, tag)) :
    bytes = m.pickle_bytes ∨ bytes = m.keras_tar_bytes ∨ bytes = m.torch_script_bytes := by
  unfold serialize_model at h
  split_ifs at h <;> simp_all

/-- C6: every successful `save_model` call posts a payload whose
`parameters` field is the UTF-8 JSON encoding of the head run's pretraining
metadata, whose `metrics` field is the UTF-8 JSON encoding of the head run's
posttraining metadata, and whose `model` field is the base64 text of the
serializer's bytes and decodes back to exactly those bytes. -/
theorem save_model_payload_fields (s : ClientState) (m : PyModel) (postOk : Bool)
    (e : Experiment) (rest : List Experiment) (resp : String)
    (hq : s.queue = e :: rest)
    (hbytes : ∀ b ∈ m.pickle_bytes ++ m.keras_tar_bytes ++ m.torch_script_bytes, b < 256)
    (hok : (Client.save_model s m postOk).1 = .ok resp) :
    ∃ bytes file tag url payload,
      serialize_model m = some (bytes, file, tag) ∧
      (Client.save_model s m postOk).2.posts = s.posts ++ [(url, payload)] ∧
      payload.parameters = utf8Encode (jsonDumps e.pretraining_metadata) ∧
      payload.metrics = utf8Encode (jsonDumps e.posttraining_metadata) ∧
      payload.model = base64Encode bytes ∧
      base64Decode payload.model = some bytes := by
  cases hw : e.workspace_id with
  | none => simp [Client.save_model, hq, hw] at hok
  | some wid =>
    cases hser : serialize_model m with
    | none => simp [Client.save_model, hq, hw, hser] at hok
    | some triple =>
      obtain ⟨bytes, file, tag⟩ := triple
      have hb : ∀ b ∈ bytes, b < 256 := by
        rcases serialize_model_bytes m bytes file tag hser with hb | hb | hb <;>
          (rw [hb]; intro x hx; exact hbytes x (by simp [hx]))
      cases file with
      | none => simp [Client.save_model, hq, hw, hser] at hok
      | some f =>
        cases postOk with
        | false => simp [Client.save_model, hq, hw, hser, doPost] at hok
        | true =>
          refine ⟨bytes, some f, tag,
            Client.build_url_str ["workspace", wid, "experiment"],
            { runtime := get_runtime_version, framework := tag,
              parameters := utf8Encode (jsonDumps e.pretraining_metadata),
              metrics := utf8Encode (jsonDumps e.posttraining_metadata),
              model := base64Encode bytes }, rfl, ?_, rfl, rfl, rfl, ?_⟩
          · simp [Client.save_model, hq, hw, hser, doPost]
          · exact base64_round_trip bytes hb

/-- C6 witness: a client with one pending run carrying concrete metadata, a
Keras-style model with bytes `[1, 2, 3, 255]`, and a successful transport. -/
theorem save_model_payload_fields_witness :
    ∃ bytes file tag url payload,
      serialize_model ⟨false, true, false, [], [1, 2, 3, 255], []⟩ = some (bytes, file, tag) ∧
      (Client.save_model
          ⟨[⟨some "ws1", none, none, [("lr", JValue.jnum 1)], [("acc", JValue.jnum 2)], none⟩], []⟩
          ⟨false, true, false, [], [1, 2, 3, 255], []⟩ true).2.posts =
        (⟨[⟨some "ws1", none, none, [("lr", JValue.jnum 1)], [("acc", JValue.jnum 2)], none⟩], []⟩
          : ClientState).posts ++ [(url, payload)] ∧
      payload.parameters = utf8Encode (jsonDumps [("lr", JValue.jnum 1)]) ∧
      payload.metrics = utf8Encode (jsonDumps [("acc", JValue.jnum 2)]) ∧
      payload.model = base64Encode bytes ∧
      base64Decode payload.model = some bytes :=
  save_model_payload_fields
    ⟨[⟨some "ws1", none, none, [("lr", JValue.jnum 1)], [("acc", JValue.jnum 2)], none⟩], []⟩
    ⟨false, true, false, [], [1, 2, 3, 255], []⟩ true
    ⟨some "ws1", none, none, [("lr", JValue.jnum 1)], [("acc", JValue.jnum 2)], none⟩ []
    "response" rfl (by decide) rfl

/-- C7: `save_model` pops the head entry from the queue first thing, before
the workspace-id validation, the serialization and the upload; whatever the
outcome (success, MissingWorkspaceError, serializer failure, transport
failure) the new queue is exactly the tail — the popped run is never
restored — and at most one POST is attempted (no retry). -/
theorem save_model_pops_head_always (s : ClientState) (m : PyModel) (postOk : Bool)
    (e : Experiment) (rest : List Experiment) (hq : s.queue = e :: rest) :
    (Client.save_model s m postOk).2.queue = rest ∧
    ((Client.save_model s m postOk).2.posts = s.posts ∨
      ∃ up, (Client.save_model s m postOk).2.posts = s.posts ++ [up]) := by
  refine ⟨by rw [save_model_queue_eq_tail, hq]; rfl, ?_⟩
  cases hw : e.workspace_id with
  | none => left; simp [Client.save_model, hq, hw]
  | some wid =>
    cases hser : serialize_model m with
    | none => left; simp [Client.save_model, hq, hw, hser]
    | some triple =>
      obtain ⟨bytes, file, tag⟩ := triple
      cases file with
      | none => left; simp [Client.save_model, hq, hw, hser]
      | some f =>
        right
        cases postOk <;>
          exact ⟨(Client.build_url_str ["workspace", wid, "experiment"],
            { runtime := get_runtime_version, framework := tag,
              parameters := utf8Encode (jsonDumps e.pretraining_metadata),
              metrics := utf8Encode (jsonDumps e.posttraining_metadata),
              model := base64Encode bytes }),
            by simp [Client.save_model, hq, hw, hser, doPost]⟩

/-- C7 witness: a valid pending run, a torch-style model, and a FAILING
transport: serialization succeeded, the upload failed, and the run is gone
from the queue all the same. -/
theorem save_model_pops_head_always_witness :
    (Client.save_model ⟨[⟨some "ws1", none, none, [], [], none⟩], []⟩
        ⟨false, false, true, [], [], [5, 6]⟩ false).2.queue = ([] : List Experiment) ∧
    ((Client.save_model ⟨[⟨some "ws1", none, none, [], [], none⟩], []⟩
        ⟨false, false, true, [], [], [5, 6]⟩ false).2.posts =
      (⟨[⟨some "ws1", none, none, [], [], none⟩], []⟩ : ClientState).posts ∨
      ∃ up, (Client.save_model ⟨[⟨some "ws1", none, none, [], [], none⟩], []⟩
          ⟨false, false, true, [], [], [5, 6]⟩ false).2.posts =
        (⟨[⟨some "ws1", none, none, [], [], none⟩], []⟩ : ClientState).posts ++ [up]) :=
  save_model_pops_head_always ⟨[⟨some "ws1", none, none, [], [], none⟩], []⟩
    ⟨false, false, true, [], [], [5, 6]⟩ false
    ⟨some "ws1", none, none, [], [], none⟩ [] rfl

/-- C8: `__serialize_model` checks the three `isinstance` categories in the
fixed source order — sklearn estimator, Keras model, torch module — and the
first match determines the result; every produced framework tag is one of
`"sklearn"`, `"tensorflow"`, `"pytorch"`; for an estimator the bytes are the
direct `pickle.dumps` blob and the transient file handle is `None`. -/
theorem serialize_model_dispatch (m : PyModel) :
    (m.is_estimator = true → serialize_model m = some (m.pickle_bytes, none, "sklearn")) ∧
    (m.is_estimator = false → m.is_keras_model = true →
      serialize_model m = some (m.keras_tar_bytes, some ⟨"model.tar.gz"⟩, "tensorflow")) ∧
    (m.is_estimator = false → m.is_keras_model = false → m.is_torch_module = true →
      serialize_model m = some (m.torch_script_bytes, some ⟨"model.pt"⟩, "pytorch")) ∧
    (∀ bytes file tag, serialize_model m = some (bytes, file, tag) →
      tag = "sklearn" ∨ tag = "tensorflow" ∨ tag = "pytorch") := by
  refine ⟨fun h1 => ?_, fun h1 h2 => ?_, fun h1 h2 h3 => ?_, fun bytes file tag h => ?_⟩
  · simp [serialize_model, h1]
  · simp [serialize_model, h1, h2]
  · simp [serialize_model, h1, h2, h3]
  · unfold serialize_model at h
    split_ifs at h <;> simp_all

/-- C8 witness: an object lying in all three categories at once serializes
as an sklearn estimator (first match wins), with pickled bytes and no file
handle. -/
theorem serialize_model_dispatch_witness :
    serialize_model ⟨true, true, true, [9], [8], [7]⟩ = some ([9], none, "sklearn") :=
  (serialize_model_dispatch ⟨true, true, true, [9], [8], [7]⟩).1 rfl

/-- C9: the workspace id of a run handle is fixed by `start_run` (the
`Experiment` class exposes `workspace_id` as a read-only property with no
setter) and no facade operation ever changes it: the metadata-logging calls
leave the whole state untouched (they raise), and `save_model` leaves the
remaining runs — and their workspace ids — exactly as they were, minus the
popped head. -/
theorem workspace_id_immutable (s : ClientState) (wid : Option String)
    (md md2 : Metadata) (m : PyModel) (postOk : Bool) :
    (Client.start_run s wid).1.workspace_id = wid ∧
    (Client.start_run s wid).2.queue.map Experiment.workspace_id
        = s.queue.map Experiment.workspace_id ++ [wid] ∧
    (Client.log_pretraining_metadata s md).2 = s ∧
    (Client.log_posttraining_metadata s md2).2 = s ∧
    (Client.save_model s m postOk).2.queue.map Experiment.workspace_id
        = (s.queue.map Experiment.workspace_id).tail := by
  refine ⟨rfl, by simp [Client.start_run], rfl, rfl, ?_⟩
  rw [save_model_queue_eq_tail]
  cases s.queue <;> simp

/-- C10: a model object matching none of the three `isinstance` categories
makes `__serialize_model` fall off the `if/elif` chain and return Python
`None`; `save_model` then raises `TypeError` while unpacking that `None`
into `(serialized_model, model_file, framework)` — before the payload is
built and before any POST is issued. -/
theorem save_model_unsupported_model (s : ClientState) (m : PyModel) (postOk : Bool)
    (e : Experiment) (rest : List Experiment) (wid : String)
    (hq : s.queue = e :: rest) (hw : e.workspace_id = some wid)
    (h1 : m.is_estimator = false) (h2 : m.is_keras_model = false)
    (h3 : m.is_torch_module = false) :
    serialize_model m = none ∧
    (Client.save_model s m postOk).1 =
      .raised (.typeError "cannot unpack non-iterable NoneType object") ∧
    (Client.save_model s m postOk).2.posts = s.posts := by
  have hser : serialize_model m = none := by simp [serialize_model, h1, h2, h3]
  refine ⟨hser, ?_, ?_⟩ <;> simp [Client.save_model, hq, hw, hser]

/-- C10 witness: a plain object (no category matches) with one valid pending
run: the serializer yields `none` and `save_model` raises the unpacking
`TypeError` with no POST recorded. -/
theorem save_model_unsupported_model_witness :
    serialize_model ⟨false, false, false, [], [], []⟩ = none ∧
    (Client.save_model ⟨[⟨some "ws1", none, none, [], [], none⟩], []⟩
        ⟨false, false, false, [], [], []⟩ true).1 =
      .raised (.typeError "cannot unpack non-iterable NoneType object") ∧
    (Client.save_model ⟨[⟨some "ws1", none, none, [], [], none⟩], []⟩
        ⟨false, false, false, [], [], []⟩ true).2.posts =
      (⟨[⟨some "ws1", none, none, [], [], none⟩], []⟩ : ClientState).posts :=
  save_model_unsupported_model ⟨[⟨some "ws1", none, none, [], [], none⟩], []⟩
    ⟨false, false, false, [], [], []⟩ true
    ⟨some "ws1", none, none, [], [], none⟩ [] "ws1" rfl rfl rfl rfl rfl
